import Mathlib

/-!
Verification of the "Муссон" pyrolysis-stove sizing calculator (src/app.py).

The development shallow-embeds the calculator's pure core:
* the static catalogs `MATERIALS`, `MUSSON_MODELS`, `WOOD_TYPES`;
* `calc_heat_loss` (building heat loss, kW), embedded over ℝ because the
  source uses `math.sqrt`;
* `musson_power` (per-load energy / average power / wood mass), embedded
  over ℚ, so every selection-pipeline computation is decidable;
* the evaluation pipeline of the script body: the per-model comparison
  rows, the suitability filter, the Python `min(..., key=price)` choice of
  the recommended model, and the daily/monthly consumption projection.

Numeric literals of the source (0.4, 1.2, 3.6, ...) are read as exact
rationals / reals, idealizing Python's binary floating point.
-/

namespace Musson

/-- Wall materials of the `MATERIALS` dict (keys transliterated). -/
inductive Material
  | kirpich          -- "кирпич"
  | gazoblok         -- "газоблок"
  | derevo           -- "дерево"
  | sandwichPanel    -- "сэндвич-панель"
  | keramzitBlok     -- "керамзит блок"
deriving DecidableEq

/-- Thermal conductivity table (W/m·K), `MATERIALS` in src/app.py. -/
def MATERIALS : Material → ℝ
  | .kirpich => 0.81
  | .gazoblok => 0.12
  | .derevo => 0.18
  | .sandwichPanel => 0.04
  | .keramzitBlok => 0.43

/-- One entry of the `MUSSON_MODELS` catalog. -/
structure HeaterModel where
  name : String
  volume_l : ℚ
  price : ℚ
deriving DecidableEq

/-- Fixed heater catalog, in dict insertion order (`MUSSON_MODELS`). -/
def MUSSON_MODELS : List HeaterModel :=
  [⟨"Муссон 300", 77, 45000⟩,
   ⟨"Муссон 600", 125, 65000⟩,
   ⟨"Муссон 1000", 200, 85000⟩,
   ⟨"Муссон 1500", 311, 110000⟩,
   ⟨"Муссон 2000", 467, 135000⟩]

/-- Wood species of the `WOOD_TYPES` dict (keys transliterated). -/
inductive WoodType
  | khvoynye         -- "хвойные"
  | beryoza          -- "берёза"
  | dub              -- "дуб"
  | lipa             -- "липа"
  | otkhody          -- "отходы (ЛДСП, ДСП, фанера и др.)"
deriving DecidableEq

/-- Density (kg/m³) and calorific value q (MJ/kg) of a wood type. -/
structure WoodSpec where
  density : ℚ
  q : ℚ
deriving DecidableEq

/-- Density / calorific-value table (`WOOD_TYPES` in src/app.py). -/
def WOOD_TYPES : WoodType → WoodSpec
  | .khvoynye => ⟨350, 17⟩
  | .beryoza => ⟨450, 18⟩
  | .dub => ⟨550, 19.5⟩
  | .lipa => ⟨500, 17.5⟩
  | .otkhody => ⟨700, 12⟩

/-- Building heat loss in kW — line-by-line embedding of `calc_heat_loss`
(src/app.py lines 42-54). -/
noncomputable def calc_heat_loss (area_m2 height_m wall_thickness_m : ℝ)
    (material : Material) (t_in t_out windows_m2 doors_m2 : ℝ)
    (roof_insulation : Bool) : ℝ :=
  let volume_m3 := area_m2 * height_m
  let lambda_wall := MATERIALS material
  let r_wall := wall_thickness_m / lambda_wall
  let wall_area := 2 * height_m * (Real.sqrt area_m2 * 4) - windows_m2 - doors_m2
  let q_walls := wall_area * (t_in - t_out) / r_wall
  let q_windows := windows_m2 * (t_in - t_out) / 0.4
  let q_doors := doors_m2 * (t_in - t_out) / 0.6
  let roof_r : ℝ := if !roof_insulation then 0.2 else 1.0
  let q_roof := area_m2 * (t_in - t_out) / roof_r
  let q_vent := 0.3 * volume_m3 * (t_in - t_out)
  let total_w := q_walls + q_windows + q_doors + q_roof + q_vent
  total_w / 1000

/-- Per-load useful energy (kWh), average power (kW) and wood mass (kg) —
embedding of `musson_power` (src/app.py lines 57-65); the triple keeps the
source's return order `(useful_kwh, p_kw, m_wood)`. -/
def musson_power (volume_l fill_fraction : ℚ) (wood_type : WoodType)
    (efficiency burn_hours : ℚ) : ℚ × ℚ × ℚ :=
  let vol_m3 := volume_l / 1000
  let filled_vol_m3 := vol_m3 * fill_fraction
  let m_wood := filled_vol_m3 * (WOOD_TYPES wood_type).density
  let q_fuel := m_wood * (WOOD_TYPES wood_type).q
  let q_kwh := q_fuel / 3.6
  let useful_kwh := q_kwh * efficiency
  let p_kw := useful_kwh / burn_hours
  (useful_kwh, p_kw, m_wood)

/-- Embedding of `calculate_fuel_consumption` (src/app.py lines 68-69). -/
def calculate_fuel_consumption (daily_heat_loss_kwh wood_energy_kwh_per_kg : ℚ) : ℚ :=
  daily_heat_loss_kwh / wood_energy_kwh_per_kg

/-- One row of the per-model comparison list built by the script body
(src/app.py lines 118-127): the dict
`{"model", "power", "energy", "wood_per_load", "price"}`. -/
structure Row where
  model : String
  power : ℚ
  energy : ℚ
  wood_per_load : ℚ
  price : ℚ
deriving DecidableEq

/-- Comparison rows: one `musson_power` evaluation per catalog model, in
catalog iteration order (src/app.py lines 118-127). -/
def results (fill_fraction : ℚ) (wood_type : WoodType) (efficiency burn_hours : ℚ) :
    List Row :=
  MUSSON_MODELS.map (fun params =>
    let out := musson_power params.volume_l fill_fraction wood_type efficiency burn_hours
    { model := params.name, power := out.2.1, energy := out.1,
      wood_per_load := out.2.2, price := params.price })

/-- Rows whose power reaches `heat_loss_kw * 1.2`
(`suitable_models`, src/app.py line 160). -/
def suitable_models (heat_loss_kw fill_fraction : ℚ) (wood_type : WoodType)
    (efficiency burn_hours : ℚ) : List Row :=
  (results fill_fraction wood_type efficiency burn_hours).filter
    (fun r => heat_loss_kw * 1.2 ≤ r.power)

/-- One step of Python's `min(..., key=lambda x: x["price"])`: the current
minimum is replaced only by a strictly smaller price, so the first minimum
encountered wins. -/
def price_step (best r : Row) : Row := if r.price < best.price then r else best

/-- Python's `min(suitable_models, key=lambda x: x["price"])` guarded by the
`if suitable_models:` emptiness test (src/app.py lines 161-162). -/
def min_by_price : List Row → Option Row
  | [] => none
  | x :: xs => some (xs.foldl price_step x)

/-- Daily/monthly consumption and cost figures (src/app.py lines 165-171). -/
structure Projection where
  daily_heat_kwh : ℚ
  daily_wood_kg : ℚ
  num_loads : ℚ
  monthly_wood : ℚ
  daily_cost : ℚ
  monthly_cost : ℚ
deriving DecidableEq

/-- Projection block of the recommendation branch, line by line
(src/app.py lines 165-171). -/
def projection (heat_loss_kw : ℚ) (wood_type : WoodType)
    (efficiency burn_hours working_day_hours wood_price_m3 : ℚ) : Projection :=
  let daily_heat_kwh := heat_loss_kw * working_day_hours
  let wood_energy_kwh_kg := (WOOD_TYPES wood_type).q / 3.6 * efficiency
  let daily_wood_kg := calculate_fuel_consumption daily_heat_kwh wood_energy_kwh_kg
  let num_loads := working_day_hours / burn_hours
  let monthly_wood := daily_wood_kg * 22
  let daily_cost := daily_wood_kg * wood_price_m3 / 1000
  let monthly_cost := daily_cost * 22
  ⟨daily_heat_kwh, daily_wood_kg, num_loads, monthly_wood, daily_cost, monthly_cost⟩

/-- Outcome of one evaluation of the script body: the comparison rows, the
optional recommendation and the optional cost projection
(src/app.py lines 118-190). -/
structure EvaluationResult where
  rows : List Row
  recommendation : Option Row
  costs : Option Projection
deriving DecidableEq

/-- Script body, lines 118-190: the table rows are always produced; the
recommendation and the projection exist only when some model is suitable
(`if suitable_models:`), otherwise the explicit no-suitable-model branch
yields neither. -/
def evaluate (heat_loss_kw fill_fraction : ℚ) (wood_type : WoodType)
    (efficiency burn_hours working_day_hours wood_price_m3 : ℚ) : EvaluationResult :=
  let rows := results fill_fraction wood_type efficiency burn_hours
  let suitable := suitable_models heat_loss_kw fill_fraction wood_type efficiency burn_hours
  match min_by_price suitable with
  | some best =>
      ⟨rows, some best,
        some (projection heat_loss_kw wood_type efficiency burn_hours
          working_day_hours wood_price_m3)⟩
  | none => ⟨rows, none, none⟩

/-- Error kinds for the fallible embedding: `zeroDivision` models what
Python's `/` raises on a zero denominator (ZeroDivisionError); `invalidInput`
is the domain-level error kind the spec asks for, which the code never
produces. -/
inductive CalcError
  | zeroDivision
  | invalidInput
deriving DecidableEq

/-- Fallible embedding of `musson_power` with Python division semantics: the
only denominator that is not a nonzero constant is `burn_hours`
(src/app.py line 64), so the function raises ZeroDivisionError there and has
no InvalidInput guard anywhere. -/
def musson_power_checked (volume_l fill_fraction : ℚ) (wood_type : WoodType)
    (efficiency burn_hours : ℚ) : Except CalcError (ℚ × ℚ × ℚ) :=
  let vol_m3 := volume_l / 1000
  let filled_vol_m3 := vol_m3 * fill_fraction
  let m_wood := filled_vol_m3 * (WOOD_TYPES wood_type).density
  let q_fuel := m_wood * (WOOD_TYPES wood_type).q
  let q_kwh := q_fuel / 3.6
  let useful_kwh := q_kwh * efficiency
  if burn_hours = 0 then Except.error CalcError.zeroDivision
  else Except.ok (useful_kwh, useful_kwh / burn_hours, m_wood)

end Musson

namespace Musson

/-- Positivity of every conductivity in the `MATERIALS` table. -/
theorem MATERIALS_pos (m : Material) : 0 < MATERIALS m := by
  cases m <;> norm_num [MATERIALS]

/-- Factorization of the heat loss as ΔT times a geometry-only coefficient. -/
theorem calc_heat_loss_factor (a h th : ℝ) (m : Material) (t_in t_out w d : ℝ)
    (ri : Bool) :
    calc_heat_loss a h th m t_in t_out w d ri
      = (t_in - t_out) * calc_heat_loss a h th m 1 0 w d ri := by
  cases ri <;> simp only [calc_heat_loss] <;> ring

/-- C1: for every building input, `calc_heat_loss` returns exactly the sum of
the five spec components (walls, windows, doors, roof, ventilation), in
watts, divided by 1000. -/
theorem C1_heat_loss_is_five_component_sum (a h th : ℝ) (m : Material)
    (t_in t_out w d : ℝ) (ri : Bool) :
    calc_heat_loss a h th m t_in t_out w d ri
      = ((2 * h * 4 * Real.sqrt a - w - d) * (t_in - t_out) / (th / MATERIALS m)
          + w * (t_in - t_out) / 0.4
          + d * (t_in - t_out) / 0.6
          + a * (t_in - t_out) / (if ri then 1.0 else 0.2)
          + 0.3 * a * h * (t_in - t_out)) / 1000 := by
  cases ri <;> simp [calc_heat_loss] <;> ring_nf

/-- C8: holding geometry, materials and openings fixed, `calc_heat_loss` is
linear in ΔT = t_in − t_out: scaling ΔT by any factor k scales the result by
k, and the result is 0 whenever t_in = t_out. -/
theorem C8_heat_loss_linear_in_deltaT (a h th : ℝ) (m : Material) (w d : ℝ)
    (ri : Bool) :
    (∀ t_in t_out t_in' t_out' k : ℝ, t_in' - t_out' = k * (t_in - t_out) →
        calc_heat_loss a h th m t_in' t_out' w d ri
          = k * calc_heat_loss a h th m t_in t_out w d ri)
    ∧ ∀ t : ℝ, calc_heat_loss a h th m t t w d ri = 0 := by
  constructor
  · intro t_in t_out t_in' t_out' k hk
    rw [calc_heat_loss_factor a h th m t_in' t_out',
      calc_heat_loss_factor a h th m t_in t_out, hk]
    ring
  · intro t
    rw [calc_heat_loss_factor]
    ring

/-- Witness for C8 at a concrete building: doubling ΔT (from 1 to 2 degrees)
doubles the heat loss. -/
theorem C8_heat_loss_linear_in_deltaT_witness :
    ((23 : ℝ) - 21 = 2 * (22 - 21))
    ∧ calc_heat_loss 100 2.5 0.4 Material.kirpich 23 21 5 2 true
        = 2 * calc_heat_loss 100 2.5 0.4 Material.kirpich 22 21 5 2 true :=
  ⟨by norm_num,
    (C8_heat_loss_linear_in_deltaT 100 2.5 0.4 Material.kirpich 5 2 true).1
      22 21 23 21 2 (by norm_num)⟩

/-- Decomposition of the fold behind `min_by_price`: the returned row splits
the input list into strictly more expensive rows before it and at least as
expensive rows after it (Python `min` keeps the first minimum). -/
theorem foldl_price_step_decomp (xs : List Row) : ∀ x : Row,
    ∃ l₁ l₂ : List Row, x :: xs = l₁ ++ xs.foldl price_step x :: l₂
      ∧ (∀ z ∈ l₁, (xs.foldl price_step x).price < z.price)
      ∧ (∀ z ∈ l₂, (xs.foldl price_step x).price ≤ z.price) := by
  induction xs with
  | nil =>
    intro x
    exact ⟨[], [], rfl, by simp, by simp⟩
  | cons y ys ih =>
    intro x
    by_cases hyx : y.price < x.price
    · have hstep : (y :: ys).foldl price_step x = ys.foldl price_step y := by
        simp [List.foldl_cons, price_step, hyx]
      obtain ⟨m₁, m₂, hdec, hstrict, hle⟩ := ih y
      have hrley : (ys.foldl price_step y).price ≤ y.price := by
        cases m₁ with
        | nil =>
          simp only [List.nil_append] at hdec
          injection hdec with h1 h2
          rw [← h1]
        | cons a m₁' =>
          simp only [List.cons_append] at hdec
          injection hdec with h1 h2
          have h3 := hstrict a (List.mem_cons_self a m₁')
          rw [← h1] at h3
          exact le_of_lt h3
      refine ⟨x :: m₁, m₂, ?_, ?_, ?_⟩
      · rw [hstep, List.cons_append, ← hdec]
      · intro z hz
        rw [hstep]
        rcases List.mem_cons.mp hz with hz | hz
        · rw [hz]
          exact lt_of_le_of_lt hrley hyx
        · exact hstrict z hz
      · intro z hz
        rw [hstep]
        exact hle z hz
    · have hstep : (y :: ys).foldl price_step x = ys.foldl price_step x := by
        simp [List.foldl_cons, price_step, hyx]
      push_neg at hyx
      obtain ⟨m₁, m₂, hdec, hstrict, hle⟩ := ih x
      cases m₁ with
      | nil =>
        simp only [List.nil_append] at hdec
        injection hdec with h1 h2
        refine ⟨[], y :: ys, ?_, by simp, ?_⟩
        · rw [hstep, List.nil_append, ← h1]
        · intro z hz
          rw [hstep, ← h1]
          rcases List.mem_cons.mp hz with hz | hz
          · rw [hz]
            exact hyx
          · rw [h1]
            exact hle z (h2 ▸ hz)
      | cons a m₁' =>
        simp only [List.cons_append] at hdec
        injection hdec with h1 h2
        have hfx : (ys.foldl price_step x).price < x.price := by
          have h3 := hstrict a (List.mem_cons_self a m₁')
          rw [← h1] at h3
          exact h3
        refine ⟨x :: y :: m₁', m₂, ?_, ?_, ?_⟩
        · rw [hstep, List.cons_append, List.cons_append, ← h2]
        · intro z hz
          rw [hstep]
          rcases List.mem_cons.mp hz with hz | hz
          · rw [hz]
            exact hfx
          · rcases List.mem_cons.mp hz with hz' | hz'
            · rw [hz']
              exact lt_of_lt_of_le hfx hyx
            · exact hstrict z (List.mem_cons_of_mem a hz')
        · intro z hz
          rw [hstep]
          exact hle z hz

/-- Characterization of `min_by_price` on a nonempty list. -/
theorem min_by_price_decomp (l : List Row) (r : Row) (h : min_by_price l = some r) :
    ∃ l₁ l₂ : List Row, l = l₁ ++ r :: l₂
      ∧ (∀ z ∈ l₁, r.price < z.price) ∧ (∀ z ∈ l₂, r.price ≤ z.price) := by
  cases l with
  | nil => simp [min_by_price] at h
  | cons x xs =>
    have hr : xs.foldl price_step x = r := by
      simpa [min_by_price] using h
    obtain ⟨l₁, l₂, hdec, hstrict, hle⟩ := foldl_price_step_decomp xs x
    rw [hr] at hdec hstrict hle
    exact ⟨l₁, l₂, hdec, hstrict, hle⟩

/-- Recommendation field of `evaluate` is exactly the price minimum of the
suitable rows. -/
theorem evaluate_recommendation_eq (hl fill eff bh wdh wprice : ℚ) (wt : WoodType) :
    (evaluate hl fill wt eff bh wdh wprice).recommendation
      = min_by_price (suitable_models hl fill wt eff bh) := by
  unfold evaluate
  dsimp only
  cases h : min_by_price (suitable_models hl fill wt eff bh) <;> rfl

/-- Rows field of `evaluate` is the full comparison table. -/
theorem evaluate_rows_eq (hl fill eff bh wdh wprice : ℚ) (wt : WoodType) :
    (evaluate hl fill wt eff bh wdh wprice).rows = results fill wt eff bh := by
  unfold evaluate
  dsimp only
  cases h : min_by_price (suitable_models hl fill wt eff bh) <;> rfl

/-- Costs field of `evaluate`, when present, is the `projection` block. -/
theorem evaluate_costs_eq (hl fill eff bh wdh wprice : ℚ) (wt : WoodType)
    (p : Projection)
    (hp : (evaluate hl fill wt eff bh wdh wprice).costs = some p) :
    p = projection hl wt eff bh wdh wprice := by
  unfold evaluate at hp
  dsimp only at hp
  cases h : min_by_price (suitable_models hl fill wt eff bh) with
  | none =>
    rw [h] at hp
    exact Option.noConfusion hp
  | some best =>
    rw [h] at hp
    injection hp with h2
    exact h2.symm

/-- C2: a recommended model is always a suitable one (power ≥ 1.2 × heat
loss), carries the minimum price among all suitable rows, and is the first
suitable row with that price in catalog iteration order. -/
theorem C2_recommendation_is_cheapest_first (hl fill eff bh wdh wprice : ℚ)
    (wt : WoodType) (r : Row)
    (hr : (evaluate hl fill wt eff bh wdh wprice).recommendation = some r) :
    r ∈ suitable_models hl fill wt eff bh
    ∧ hl * 1.2 ≤ r.power
    ∧ (∀ x ∈ suitable_models hl fill wt eff bh, r.price ≤ x.price)
    ∧ ∃ l₁ l₂ : List Row, suitable_models hl fill wt eff bh = l₁ ++ r :: l₂
        ∧ ∀ x ∈ l₁, r.price < x.price := by
  rw [evaluate_recommendation_eq] at hr
  obtain ⟨l₁, l₂, hdec, hstrict, hle⟩ := min_by_price_decomp _ r hr
  have hmem : r ∈ suitable_models hl fill wt eff bh := by
    rw [hdec]
    exact List.mem_append.mpr (Or.inr (List.mem_cons_self r l₂))
  refine ⟨hmem, ?_, ?_, l₁, l₂, hdec, hstrict⟩
  · have hmem' := hmem
    rw [suitable_models] at hmem'
    exact of_decide_eq_true (List.mem_filter.mp hmem').2
  · intro x hx
    rw [hdec] at hx
    rcases List.mem_append.mp hx with hx | hx
    · exact le_of_lt (hstrict x hx)
    · rcases List.mem_cons.mp hx with hx | hx
      · rw [hx]
      · exact hle x hx

/-- C3: when no model reaches the required power the evaluation still
produces all 5 comparison rows, every row fails the suitability test, and
neither a recommendation nor a cost projection is computed. -/
theorem C3_none_suitable_explicit (hl fill eff bh wdh wprice : ℚ) (wt : WoodType)
    (hempty : suitable_models hl fill wt eff bh = []) :
    (evaluate hl fill wt eff bh wdh wprice).recommendation = none
    ∧ (evaluate hl fill wt eff bh wdh wprice).costs = none
    ∧ (evaluate hl fill wt eff bh wdh wprice).rows.length = 5
    ∧ ∀ r ∈ (evaluate hl fill wt eff bh wdh wprice).rows, ¬ hl * 1.2 ≤ r.power := by
  refine ⟨?_, ?_, ?_, ?_⟩
  · rw [evaluate_recommendation_eq, hempty]
    rfl
  · unfold evaluate
    dsimp only
    rw [hempty]
    rfl
  · rw [evaluate_rows_eq]
    simp [results, MUSSON_MODELS]
  · intro r hr hpow
    rw [evaluate_rows_eq] at hr
    have hmem : r ∈ suitable_models hl fill wt eff bh := by
      rw [suitable_models]
      exact List.mem_filter.mpr ⟨hr, decide_eq_true hpow⟩
    rw [hempty] at hmem
    exact absurd hmem (List.not_mem_nil r)

/-- Python's `min` keeps the start value when nothing later is strictly
cheaper. -/
theorem foldl_price_step_head : ∀ (xs : List Row) (x : Row),
    (∀ z ∈ xs, x.price ≤ z.price) → xs.foldl price_step x = x := by
  intro xs
  induction xs with
  | nil =>
    intro x _
    rfl
  | cons y ys ih =>
    intro x h
    have hxy : ¬ y.price < x.price := not_lt.mpr (h y (List.mem_cons_self y ys))
    have hstep : price_step x y = x := if_neg hxy
    rw [List.foldl_cons, hstep]
    exact ih x (fun z hz => h z (List.mem_cons_of_mem y hz))

/-- On a list with weakly increasing prices, `min_by_price` returns the
head. -/
theorem min_by_price_of_sorted (l : List Row)
    (h : l.Pairwise (fun a b => a.price ≤ b.price)) :
    min_by_price l = l.head? := by
  cases l with
  | nil => rfl
  | cons x xs =>
    have hx : ∀ z ∈ xs, x.price ≤ z.price := (List.pairwise_cons.mp h).1
    simp [min_by_price, foldl_price_step_head xs x hx]

/-- Catalog prices increase along the comparison rows, whatever the fuel
configuration. -/
theorem results_price_sorted (fill eff bh : ℚ) (wt : WoodType) :
    (results fill wt eff bh).Pairwise (fun a b => a.price ≤ b.price) := by
  simp [results, MUSSON_MODELS, List.pairwise_cons]
  norm_num

/-- Suitable rows keep the weakly increasing prices of the full row list. -/
theorem suitable_price_sorted (hl fill eff bh : ℚ) (wt : WoodType) :
    (suitable_models hl fill wt eff bh).Pairwise (fun a b => a.price ≤ b.price) :=
  (results_price_sorted fill eff bh wt).sublist (List.filter_sublist _)

/-- Propagation of a Bool predicate along a chain of implications. -/
theorem all_of_chain (p : Row → Bool) :
    ∀ (y : Row) (ys : List Row),
      (y :: ys).Chain' (fun a b => p a = true → p b = true) →
      p y = true → ∀ z ∈ y :: ys, p z = true := by
  intro y ys
  induction ys generalizing y with
  | nil =>
    intro _ hy z hz
    rw [List.mem_singleton.mp hz]
    exact hy
  | cons w ws ih =>
    intro hch hy z hz
    obtain ⟨hyw, hch'⟩ := List.chain'_cons.mp hch
    rcases List.mem_cons.mp hz with hz | hz
    · rw [hz]
      exact hy
    · exact ih w hch' (hyw hy) z hz

/-- Filtering by a predicate that only switches on along the list keeps a
suffix. -/
theorem filter_suffix_of_chain (p : Row → Bool) :
    ∀ l : List Row, l.Chain' (fun a b => p a = true → p b = true) →
      (l.filter p).IsSuffix l := by
  intro l
  induction l with
  | nil =>
    intro _
    exact List.suffix_refl []
  | cons y ys ih =>
    intro hch
    by_cases hy : p y = true
    · have hall : ∀ z ∈ y :: ys, p z = true := all_of_chain p y ys hch hy
      rw [List.filter_eq_self.mpr hall]
    · rw [List.filter_cons_of_neg hy]
      exact (ih hch.tail).trans (List.suffix_cons y ys)

/-- The computed average power is monotone in the firebox volume whenever
fill fraction, efficiency and burn hours are nonnegative. -/
theorem musson_power_mono (v w fill eff bh : ℚ) (wt : WoodType)
    (hfill : 0 ≤ fill) (heff : 0 ≤ eff) (hbh : 0 ≤ bh) (hvw : v ≤ w) :
    (musson_power v fill wt eff bh).2.1 ≤ (musson_power w fill wt eff bh).2.1 := by
  have hd : (0:ℚ) ≤ (WOOD_TYPES wt).density := by
    cases wt <;> norm_num [WOOD_TYPES]
  have hq : (0:ℚ) ≤ (WOOD_TYPES wt).q := by
    cases wt <;> norm_num [WOOD_TYPES]
  simp only [musson_power]
  gcongr

/-- Suitability propagates down the row list for a positive configuration. -/
theorem results_suitability_chain (hl fill eff bh : ℚ) (wt : WoodType)
    (hfill : 0 ≤ fill) (heff : 0 ≤ eff) (hbh : 0 ≤ bh) :
    (results fill wt eff bh).Chain' (fun a b =>
      decide (hl * 1.2 ≤ a.power) = true → decide (hl * 1.2 ≤ b.power) = true) := by
  simp only [results, MUSSON_MODELS, List.map, List.chain'_cons,
    List.chain'_singleton, decide_eq_true_eq, and_true]
  refine ⟨?_, ?_, ?_, ?_⟩ <;> intro h <;>
    exact le_trans h (musson_power_mono _ _ fill eff bh wt hfill heff hbh (by norm_num))

/-- Costs field of `evaluate` in the branch where a recommendation exists. -/
theorem evaluate_costs_of_some (hl fill eff bh wdh wprice : ℚ) (wt : WoodType)
    (r : Row) (h : min_by_price (suitable_models hl fill wt eff bh) = some r) :
    (evaluate hl fill wt eff bh wdh wprice).costs
      = some (projection hl wt eff bh wdh wprice) := by
  unfold evaluate
  dsimp only
  rw [h]

/-- C9: for a positive fuel configuration the recommendation is the first
suitable row in catalog iteration order, the suitable set is a suffix of the
row list, and firebox volume and price increase strictly along the catalog. -/
theorem C9_recommended_is_first_suitable (hl fill eff bh wdh wprice : ℚ)
    (wt : WoodType) (hfill : 0 < fill) (heff : 0 < eff) (hbh : 0 < bh)
    (hdens : 0 < (WOOD_TYPES wt).density) (hq : 0 < (WOOD_TYPES wt).q) :
    (evaluate hl fill wt eff bh wdh wprice).recommendation
        = (suitable_models hl fill wt eff bh).head?
    ∧ (suitable_models hl fill wt eff bh).IsSuffix (results fill wt eff bh)
    ∧ MUSSON_MODELS.Pairwise (fun a b => a.volume_l < b.volume_l ∧ a.price < b.price) := by
  refine ⟨?_, ?_, ?_⟩
  · rw [evaluate_recommendation_eq]
    exact min_by_price_of_sorted _ (suitable_price_sorted hl fill eff bh wt)
  · rw [suitable_models]
    exact filter_suffix_of_chain _ _ (results_suitability_chain hl fill eff bh wt
      (le_of_lt hfill) (le_of_lt heff) (le_of_lt hbh))
  · simp [MUSSON_MODELS, List.pairwise_cons]
    norm_num

/-- Witness for C9 at a concrete positive configuration. -/
theorem C9_recommended_is_first_suitable_witness :
    (evaluate 1 1 WoodType.khvoynye 1 1 8 3500).recommendation
        = (suitable_models 1 1 WoodType.khvoynye 1 1).head?
    ∧ (suitable_models 1 1 WoodType.khvoynye 1 1).IsSuffix
        (results 1 WoodType.khvoynye 1 1)
    ∧ MUSSON_MODELS.Pairwise (fun a b => a.volume_l < b.volume_l ∧ a.price < b.price) :=
  C9_recommended_is_first_suitable 1 1 1 1 8 3500 WoodType.khvoynye
    (by norm_num) (by norm_num) (by norm_num)
    (by norm_num [WOOD_TYPES]) (by norm_num [WOOD_TYPES])

/-- Witness for C2: at heat loss 1 kW with fill 1, efficiency 1, burn hours
1 and хвойные fuel every model is suitable and the cheapest, Муссон 300, is
recommended. -/
theorem C2_recommendation_is_cheapest_first_witness :
    (⟨"Муссон 300", 9163/72, 9163/72, 539/20, 45000⟩ : Row)
        ∈ suitable_models 1 1 WoodType.khvoynye 1 1
    ∧ (1 : ℚ) * 1.2 ≤ 9163/72
    ∧ (∀ x ∈ suitable_models 1 1 WoodType.khvoynye 1 1, (45000:ℚ) ≤ x.price)
    ∧ ∃ l₁ l₂ : List Row, suitable_models 1 1 WoodType.khvoynye 1 1
          = l₁ ++ (⟨"Муссон 300", 9163/72, 9163/72, 539/20, 45000⟩ : Row) :: l₂
        ∧ ∀ x ∈ l₁, (45000:ℚ) < x.price :=
  C2_recommendation_is_cheapest_first 1 1 1 1 8 3500 WoodType.khvoynye
    ⟨"Муссон 300", 9163/72, 9163/72, 539/20, 45000⟩
    (by
      rw [evaluate_recommendation_eq]
      norm_num [suitable_models, results, MUSSON_MODELS, musson_power,
        WOOD_TYPES, min_by_price, price_step, List.filter_cons, List.foldl])

/-- Witness for C3: a heat loss of 1000000 kW exceeds every model's power. -/
theorem C3_none_suitable_explicit_witness :
    (evaluate 1000000 (17/20) WoodType.beryoza (22/25) 6 10 3500).recommendation = none
    ∧ (evaluate 1000000 (17/20) WoodType.beryoza (22/25) 6 10 3500).costs = none
    ∧ (evaluate 1000000 (17/20) WoodType.beryoza (22/25) 6 10 3500).rows.length = 5
    ∧ ∀ r ∈ (evaluate 1000000 (17/20) WoodType.beryoza (22/25) 6 10 3500).rows,
        ¬ (1000000 : ℚ) * 1.2 ≤ r.power :=
  C3_none_suitable_explicit 1000000 (17/20) (22/25) 6 10 3500 WoodType.beryoza
    (by
      norm_num [suitable_models, results, MUSSON_MODELS, musson_power,
        WOOD_TYPES, List.filter_cons])

/-- C4 counterexample: at heat loss 10 kW, берёза, fill 0.85, efficiency
0.88, burn hours 6 and a 10-hour working day the recommendation exists with
wood-per-load 29.4525 kg, yet the daily fuel mass is 250/11 ≈ 22.73 kg and
not wood_per_load × ceil(10/6) = 58.905 kg. -/
theorem C4_daily_fuel_not_per_load_counterexample :
    (evaluate 10 (17/20) WoodType.beryoza (22/25) 6 10 3500).recommendation.map
        Row.wood_per_load = some (11781/400)
    ∧ (evaluate 10 (17/20) WoodType.beryoza (22/25) 6 10 3500).costs.map
        Projection.daily_wood_kg = some (250/11)
    ∧ (250/11 : ℚ) ≠ 11781/400 * ((⌈(10:ℚ)/6⌉ : ℤ) : ℚ) := by
  have hmin : min_by_price (suitable_models 10 (17/20) WoodType.beryoza (22/25) 6)
      = some ⟨"Муссон 300", 43197/2000, 129591/1000, 11781/400, 45000⟩ := by
    norm_num [suitable_models, results, MUSSON_MODELS, musson_power,
      WOOD_TYPES, min_by_price, price_step, List.filter_cons, List.foldl]
  refine ⟨?_, ?_, ?_⟩
  · rw [evaluate_recommendation_eq, hmin]
    rfl
  · rw [evaluate_costs_of_some 10 (17/20) (22/25) 6 10 3500 WoodType.beryoza _ hmin]
    norm_num [projection, calculate_fuel_consumption, WOOD_TYPES]
  · have hceil : (⌈(10:ℚ)/6⌉ : ℤ) = 2 := by
      rw [Int.ceil_eq_iff]
      norm_num
    rw [hceil]
    norm_num

/-- C4 as amended by the code: the daily fuel mass is energy-based —
heat_loss × working_day_hours / ((q/3.6) × efficiency) — independent of the
recommended model's load size; the monthly mass is daily × 22; the displayed
loads-per-day figure is working_day_hours / burn_hours without ceiling. -/
theorem C4_daily_fuel_energy_based (hl fill eff bh wdh wprice : ℚ)
    (wt : WoodType) (p : Projection)
    (hp : (evaluate hl fill wt eff bh wdh wprice).costs = some p) :
    p.daily_wood_kg = hl * wdh / ((WOOD_TYPES wt).q / 3.6 * eff)
    ∧ p.monthly_wood = p.daily_wood_kg * 22
    ∧ p.num_loads = wdh / bh := by
  have h := evaluate_costs_eq hl fill eff bh wdh wprice wt p hp
  rw [h]
  exact ⟨rfl, rfl, rfl⟩

/-- Witness for the amended C4 at the counterexample's configuration. -/
theorem C4_daily_fuel_energy_based_witness :
    (projection 10 WoodType.beryoza (22/25) 6 10 3500).daily_wood_kg
        = 10 * 10 / ((WOOD_TYPES WoodType.beryoza).q / 3.6 * (22/25))
    ∧ (projection 10 WoodType.beryoza (22/25) 6 10 3500).monthly_wood
        = (projection 10 WoodType.beryoza (22/25) 6 10 3500).daily_wood_kg * 22
    ∧ (projection 10 WoodType.beryoza (22/25) 6 10 3500).num_loads = 10 / 6 :=
  C4_daily_fuel_energy_based 10 (17/20) (22/25) 6 10 3500 WoodType.beryoza
    (projection 10 WoodType.beryoza (22/25) 6 10 3500)
    (evaluate_costs_of_some 10 (17/20) (22/25) 6 10 3500 WoodType.beryoza
      ⟨"Муссон 300", 43197/2000, 129591/1000, 11781/400, 45000⟩
      (by
        norm_num [suitable_models, results, MUSSON_MODELS, musson_power,
          WOOD_TYPES, min_by_price, price_step, List.filter_cons, List.foldl]))

/-- C5 counterexample: at the same configuration the daily cost is
daily_wood × 3500 / 1000 = 875/11 ≈ 79.5 rub, not
daily_wood × (3500 / density 450) ≈ 176.8 rub as the claim's cost-per-kg
formula would give. -/
theorem C5_cost_not_density_counterexample :
    (evaluate 10 (17/20) WoodType.beryoza (22/25) 6 10 3500).costs.map
        Projection.daily_cost = some (875/11)
    ∧ (evaluate 10 (17/20) WoodType.beryoza (22/25) 6 10 3500).costs.map
        Projection.daily_wood_kg = some (250/11)
    ∧ (875/11 : ℚ) ≠ 250/11 * (3500 / (WOOD_TYPES WoodType.beryoza).density) := by
  have hmin : min_by_price (suitable_models 10 (17/20) WoodType.beryoza (22/25) 6)
      = some ⟨"Муссон 300", 43197/2000, 129591/1000, 11781/400, 45000⟩ := by
    norm_num [suitable_models, results, MUSSON_MODELS, musson_power,
      WOOD_TYPES, min_by_price, price_step, List.filter_cons, List.foldl]
  refine ⟨?_, ?_, ?_⟩
  · rw [evaluate_costs_of_some 10 (17/20) (22/25) 6 10 3500 WoodType.beryoza _ hmin]
    norm_num [projection, calculate_fuel_consumption, WOOD_TYPES]
  · rw [evaluate_costs_of_some 10 (17/20) (22/25) 6 10 3500 WoodType.beryoza _ hmin]
    norm_num [projection, calculate_fuel_consumption, WOOD_TYPES]
  · norm_num [WOOD_TYPES]

/-- C5 as amended by the code: the cost per kilogram is wood_price_per_m3 /
1000 (a fixed 1000 kg/m³ conversion, not the fuel's density), so daily cost
= daily_wood × price / 1000 and monthly cost = daily cost × 22 = monthly_wood
× price / 1000. -/
theorem C5_cost_per_kg_fixed_1000 (hl fill eff bh wdh wprice : ℚ)
    (wt : WoodType) (p : Projection)
    (hp : (evaluate hl fill wt eff bh wdh wprice).costs = some p) :
    p.daily_cost = p.daily_wood_kg * wprice / 1000
    ∧ p.monthly_cost = p.daily_cost * 22
    ∧ p.monthly_cost = p.monthly_wood * wprice / 1000 := by
  have h := evaluate_costs_eq hl fill eff bh wdh wprice wt p hp
  rw [h]
  refine ⟨rfl, rfl, ?_⟩
  dsimp only [projection]
  ring

/-- Witness for the amended C5 at the counterexample's configuration. -/
theorem C5_cost_per_kg_fixed_1000_witness :
    (projection 10 WoodType.beryoza (22/25) 6 10 3500).daily_cost
        = (projection 10 WoodType.beryoza (22/25) 6 10 3500).daily_wood_kg * 3500 / 1000
    ∧ (projection 10 WoodType.beryoza (22/25) 6 10 3500).monthly_cost
        = (projection 10 WoodType.beryoza (22/25) 6 10 3500).daily_cost * 22
    ∧ (projection 10 WoodType.beryoza (22/25) 6 10 3500).monthly_cost
        = (projection 10 WoodType.beryoza (22/25) 6 10 3500).monthly_wood * 3500 / 1000 :=
  C5_cost_per_kg_fixed_1000 10 (17/20) (22/25) 6 10 3500 WoodType.beryoza
    (projection 10 WoodType.beryoza (22/25) 6 10 3500)
    (evaluate_costs_of_some 10 (17/20) (22/25) 6 10 3500 WoodType.beryoza
      ⟨"Муссон 300", 43197/2000, 129591/1000, 11781/400, 45000⟩
      (by
        norm_num [suitable_models, results, MUSSON_MODELS, musson_power,
          WOOD_TYPES, min_by_price, price_step, List.filter_cons, List.foldl]))

/-- C7 counterexample: at burn_hours = 0 the fuel-power computation fails
with a bare ZeroDivisionError, which is not an InvalidInput error kind. -/
theorem C7_zero_burn_hours_counterexample :
    musson_power_checked 200 (17/20) WoodType.beryoza (22/25) 0
        = Except.error CalcError.zeroDivision
    ∧ (Except.error CalcError.zeroDivision :
        Except CalcError (ℚ × ℚ × ℚ)) ≠ Except.error CalcError.invalidInput := by
  constructor
  · simp [musson_power_checked]
  · intro h
    exact CalcError.noConfusion (Except.error.inj h)

/-- C7 as amended by the code: no InvalidInput guard exists; the density and
conductivity denominators come from fixed catalogs whose entries are all
nonzero, and the burn-hours denominator is unguarded — zero raises
ZeroDivisionError, anything else returns the plain result. -/
theorem C7_unguarded_division (wt : WoodType) (m : Material)
    (v fill eff bh : ℚ) :
    (WOOD_TYPES wt).density ≠ 0
    ∧ MATERIALS m ≠ 0
    ∧ musson_power_checked v fill wt eff 0 = Except.error CalcError.zeroDivision
    ∧ (bh ≠ 0 → musson_power_checked v fill wt eff bh
        = Except.ok (musson_power v fill wt eff bh)) := by
  refine ⟨?_, ?_, ?_, ?_⟩
  · cases wt <;> norm_num [WOOD_TYPES]
  · cases m <;> norm_num [MATERIALS]
  · simp [musson_power_checked]
  · intro hbh
    simp [musson_power_checked, musson_power, hbh]

/-- Witness for the amended C7 at a concrete nonzero burn time. -/
theorem C7_unguarded_division_witness :
    (WOOD_TYPES WoodType.beryoza).density ≠ 0
    ∧ MATERIALS Material.kirpich ≠ 0
    ∧ musson_power_checked 200 (17/20) WoodType.beryoza (22/25) 0
        = Except.error CalcError.zeroDivision
    ∧ musson_power_checked 200 (17/20) WoodType.beryoza (22/25) 6
        = Except.ok (musson_power 200 (17/20) WoodType.beryoza (22/25) 6) :=
  ⟨(C7_unguarded_division WoodType.beryoza Material.kirpich 200 (17/20) (22/25) 6).1,
   (C7_unguarded_division WoodType.beryoza Material.kirpich 200 (17/20) (22/25) 6).2.1,
   (C7_unguarded_division WoodType.beryoza Material.kirpich 200 (17/20) (22/25) 6).2.2.1,
   (C7_unguarded_division WoodType.beryoza Material.kirpich 200 (17/20) (22/25) 6).2.2.2
     (by norm_num)⟩

/-- C10: within the UI widget ranges (area 20-500 m², height 2-5 m, windows
0-50 m², doors 0-10 m², indoor 15-30 °C, outdoor -50-10 °C, wall thickness
0.10-1.00 m) the derived wall area is strictly positive, ΔT ≥ 5, and the
heat loss is strictly positive. -/
theorem C10_positive_heat_loss_in_ui_ranges
    (a h w d t_in t_out th : ℝ) (m : Material) (ri : Bool)
    (ha : 20 ≤ a) (ha' : a ≤ 500) (hh : 2 ≤ h) (hh' : h ≤ 5)
    (hw : 0 ≤ w) (hw' : w ≤ 50) (hd : 0 ≤ d) (hd' : d ≤ 10)
    (htin : 15 ≤ t_in) (htin' : t_in ≤ 30)
    (htout : -50 ≤ t_out) (htout' : t_out ≤ 10)
    (hth : 0.1 ≤ th) (hth' : th ≤ 1) :
    0 < 2 * h * (Real.sqrt a * 4) - w - d
    ∧ 5 ≤ t_in - t_out
    ∧ 0 < calc_heat_loss a h th m t_in t_out w d ri := by
  have hs20 : (3.75 : ℝ) < Real.sqrt 20 :=
    (Real.lt_sqrt (by norm_num)).mpr (by norm_num)
  have hs : (3.75 : ℝ) < Real.sqrt a := lt_of_lt_of_le hs20 (Real.sqrt_le_sqrt ha)
  have hwall : 0 < 2 * h * (Real.sqrt a * 4) - w - d := by
    nlinarith [mul_nonneg (sub_nonneg.mpr hh) (le_of_lt (sub_pos.mpr hs))]
  have hdt : (5:ℝ) ≤ t_in - t_out := by linarith
  refine ⟨hwall, hdt, ?_⟩
  have hlam := MATERIALS_pos m
  have hrw : 0 < th / MATERIALS m := div_pos (by linarith) hlam
  have hroof : (0:ℝ) < (if !ri then 0.2 else 1.0) := by cases ri <;> norm_num
  have h1 : 0 < (2 * h * (Real.sqrt a * 4) - w - d) * (t_in - t_out) / (th / MATERIALS m) :=
    div_pos (mul_pos hwall (by linarith)) hrw
  have h2 : 0 ≤ w * (t_in - t_out) / 0.4 :=
    div_nonneg (mul_nonneg hw (by linarith)) (by norm_num)
  have h3 : 0 ≤ d * (t_in - t_out) / 0.6 :=
    div_nonneg (mul_nonneg hd (by linarith)) (by norm_num)
  have h4 : 0 < a * (t_in - t_out) / (if !ri then (0.2:ℝ) else 1.0) :=
    div_pos (mul_pos (by linarith) (by linarith)) hroof
  have h5 : 0 < 0.3 * (a * h) * (t_in - t_out) :=
    mul_pos (mul_pos (by norm_num) (mul_pos (by linarith) (by linarith))) (by linarith)
  simp only [calc_heat_loss]
  exact div_pos (by linarith) (by norm_num)

/-- Witness for C10 at the UI default inputs. -/
theorem C10_positive_heat_loss_in_ui_ranges_witness :
    0 < 2 * 2.5 * (Real.sqrt 100 * 4) - 5 - 2
    ∧ (5:ℝ) ≤ 22 - (-20)
    ∧ 0 < calc_heat_loss 100 2.5 0.4 Material.kirpich 22 (-20) 5 2 true :=
  C10_positive_heat_loss_in_ui_ranges 100 2.5 5 2 22 (-20) 0.4 Material.kirpich true
    (by norm_num) (by norm_num) (by norm_num) (by norm_num) (by norm_num)
    (by norm_num) (by norm_num) (by norm_num) (by norm_num) (by norm_num)
    (by norm_num) (by norm_num) (by norm_num) (by norm_num)

/-- C6: the fuel-power function returns wood mass = (volume/1000) ×
fill_fraction × density, useful energy = mass × q / 3.6 × efficiency, and
power = useful energy / burn_hours, for every input (in particular for the
spec's example volume 200 L, fill 0.85, берёза, efficiency 0.88, 6 h). -/
theorem C6_musson_power_formula (v fill eff bh : ℚ) (wt : WoodType) :
    musson_power v fill wt eff bh
      = (v / 1000 * fill * (WOOD_TYPES wt).density * (WOOD_TYPES wt).q / 3.6 * eff,
         v / 1000 * fill * (WOOD_TYPES wt).density * (WOOD_TYPES wt).q / 3.6 * eff / bh,
         v / 1000 * fill * (WOOD_TYPES wt).density) := rfl

end Musson
